import Mathlib

/-!
Verification of the comic-generation orchestration core of the repository
(src/App.tsx, src/services/geminiService.ts, and the unnamed variant service
files src/unnamed/part_000 .. part_002).

The embedding models the pure data-flow of the pipeline.  Network calls are
replaced by outcome oracles: a function from the attempt index (or the
character reference) to the parsed result that attempt would produce.  JS
falsy coercions (`x || d`) are modelled explicitly, strings are Lean strings,
and the accumulated run-level error string (joined with newline characters
and split on them for display) is modelled as the list of its lines.
-/

/-- Aspect ratio enum from src/types (SQUARE, PORTRAIT, LANDSCAPE). -/
inductive AspectRatio where
  | square
  | portrait
  | landscape
deriving DecidableEq, Repr

/-- Generation service enum from src/types (GEMINI, POLLINATIONS). -/
inductive GenerationService where
  | gemini
  | pollinations
deriving DecidableEq, Repr

/-- A character reference from the input form: name and image data URL.
An empty string models a missing/null value (JS falsy). -/
structure CharacterReference where
  name : String
  imageDataUrl : String
deriving DecidableEq, Repr

/-- The validated StoryInputOptions record passed by the UI layer. -/
structure StoryInputOptions where
  story : String
  style : String
  era : String
  aspectRatio : AspectRatio
  includeCaptions : Bool
  numPages : Nat
  imageModel : String
  textModel : String
  generationService : GenerationService
  characterReferences : List CharacterReference
deriving DecidableEq, Repr

/-- One parsed entry of the backend's decomposition response, after JSON
parsing and before the post-parse repair.  `scene_number = none` models an
absent or null field; `dialogues = none` models a value that is not an
array (the code checks `Array.isArray`). -/
structure RawScene where
  scene_number : Option Nat
  image_prompt : String
  caption : Option String
  dialogues : Option (List String)
deriving DecidableEq, Repr

/-- ComicPanelData from src/types: a panel spec plus the image slot filled in
by the orchestrator.  `imageUrl = none` is pending, `some "error"` is the
failure sentinel written by the orchestrator, any other `some url` is a
resolved image. -/
structure ComicPanelData where
  scene_number : Nat
  image_prompt : String
  caption : Option String
  dialogues : List String
  imageUrl : Option String := none
deriving DecidableEq, Repr

/-- JS `v || d` on an optional number: null/undefined and 0 are falsy. -/
def jsOrNat : Option Nat → Nat → Nat
  | none, d => d
  | some 0, d => d
  | some (n+1), _ => n + 1

/-- JS `v || d` on an optional string: null/undefined and "" are falsy. -/
def jsOrStr : Option String → String → String
  | none, d => d
  | some s, d => if s = "" then d else s

/-- Boolean test that `pat` is a prefix of `l` (character lists). -/
def isPrefixChars : List Char → List Char → Bool
  | [], _ => true
  | _ :: _, [] => false
  | a :: pat, b :: l => a = b && isPrefixChars pat l

/-- Boolean test that `pat` occurs as a contiguous substring of `l`. -/
def hasSubstrChars (pat : List Char) : List Char → Bool
  | [] => isPrefixChars pat []
  | c :: l => isPrefixChars pat (c :: l) || hasSubstrChars pat l

/-- String containment test, modelling JS `String.prototype.includes`. -/
def strContains (s pat : String) : Bool :=
  hasSubstrChars pat.toList s.toList

theorem isPrefixChars_refl (l : List Char) : isPrefixChars l l = true := by
  induction l with
  | nil => rfl
  | cons a l ih => simp [isPrefixChars, ih]

theorem isPrefixChars_append_ext (pat l m : List Char)
    (h : isPrefixChars pat l = true) : isPrefixChars pat (l ++ m) = true := by
  induction pat generalizing l with
  | nil => rfl
  | cons a pat ih =>
    cases l with
    | nil => simp [isPrefixChars] at h
    | cons b l =>
      simp only [isPrefixChars, Bool.and_eq_true] at h ⊢
      exact ⟨h.1, ih l h.2⟩

theorem hasSubstrChars_nil (l : List Char) : hasSubstrChars [] l = true := by
  cases l with
  | nil => rfl
  | cons c l => simp [hasSubstrChars, isPrefixChars]

theorem hasSubstrChars_of_isPrefixChars (pat l : List Char)
    (h : isPrefixChars pat l = true) : hasSubstrChars pat l = true := by
  cases l with
  | nil =>
    cases pat with
    | nil => rfl
    | cons a pat => simp [isPrefixChars] at h
  | cons c l => simp [hasSubstrChars, h]

theorem hasSubstrChars_refl (l : List Char) : hasSubstrChars l l = true :=
  hasSubstrChars_of_isPrefixChars l l (isPrefixChars_refl l)

theorem hasSubstrChars_append_right (pat xs ys : List Char)
    (h : hasSubstrChars pat ys = true) : hasSubstrChars pat (xs ++ ys) = true := by
  induction xs with
  | nil => simpa using h
  | cons x xs ih => simp [hasSubstrChars, ih]

theorem hasSubstrChars_append_left (pat xs ys : List Char)
    (h : hasSubstrChars pat xs = true) : hasSubstrChars pat (xs ++ ys) = true := by
  induction xs with
  | nil =>
    cases pat with
    | nil => exact hasSubstrChars_nil ys
    | cons a pat => simp [hasSubstrChars, isPrefixChars] at h
  | cons x xs ih =>
    simp only [hasSubstrChars, Bool.or_eq_true] at h
    rcases h with h | h
    · have hp := isPrefixChars_append_ext pat (x :: xs) ys h
      simp only [List.cons_append] at hp ⊢
      simp only [hasSubstrChars, Bool.or_eq_true]
      exact Or.inl hp
    · simp only [List.cons_append]
      simp [hasSubstrChars, ih h]

theorem strContains_append_left (a b pat : String)
    (h : strContains a pat = true) : strContains (a ++ b) pat = true := by
  unfold strContains at h ⊢
  rw [show (a ++ b).toList = a.toList ++ b.toList from String.data_append a b]
  exact hasSubstrChars_append_left _ _ _ h

theorem strContains_append_right (a b pat : String)
    (h : strContains b pat = true) : strContains (a ++ b) pat = true := by
  unfold strContains at h ⊢
  rw [show (a ++ b).toList = a.toList ++ b.toList from String.data_append a b]
  exact hasSubstrChars_append_right _ _ _ h

theorem strContains_refl (s : String) : strContains s s = true :=
  hasSubstrChars_refl s.toList

/-- Modelled from the spec: FIXED_IMAGE_SEED is the fixed, caller-configured
seed constant exported by src/constants (a file not present under src/).
Its concrete value is irrelevant to every claim below; what matters is that
every request site uses this single constant. -/
def FIXED_IMAGE_SEED : Nat := 42

/-- Width/height query parameters chosen from the aspect ratio, shared by
every Pollinations image-request variant (1024x1792 portrait, 1792x1024
landscape, 1024x1024 square/default). -/
def pollinationsDims : AspectRatio → List (String × String)
  | AspectRatio.portrait => [("width", "1024"), ("height", "1792")]
  | AspectRatio.landscape => [("width", "1792"), ("height", "1024")]
  | AspectRatio.square => [("width", "1024"), ("height", "1024")]

/-- Query parameters of the Pollinations image request built by
generateImageForPromptWithPollinations in src/services/geminiService.ts
(lines 113-133): model, seed = FIXED_IMAGE_SEED, then width/height. -/
def pollinationsImageParams (model : String) (aspectRatio : AspectRatio) :
    List (String × String) :=
  [("model", model), ("seed", toString FIXED_IMAGE_SEED)] ++ pollinationsDims aspectRatio

/-- Query parameters of the Pollinations image request built by the
generateImageForPromptWithPollinations variant in src/unnamed/part_001
(lines 100-119): model, then width/height - no seed parameter. -/
def pollinationsImageParamsPart001 (model : String) (aspectRatio : AspectRatio) :
    List (String × String) :=
  [("model", model)] ++ pollinationsDims aspectRatio

/-- Aspect-ratio token sent to the Gemini image API ("1:1", "9:16", "16:9"). -/
def apiAspectRatioValue : AspectRatio → String
  | AspectRatio.square => "1:1"
  | AspectRatio.portrait => "9:16"
  | AspectRatio.landscape => "16:9"

/-- The wire request of one generateImages call of the Gemini backend. -/
structure GeminiImageRequest where
  model : String
  prompt : String
  count : Nat
  aspectRatio : String
  seed : Nat
  outputFormat : String
deriving DecidableEq, Repr

/-- The request constructed inside the retry loop of generateImageForPrompt
in src/services/geminiService.ts (lines 317-363) at a given attempt index.
The attempt index is a parameter to make it visible that the loop body
builds the same request at every attempt (only the backoff delay uses it). -/
def geminiImageRequestAt (_attempt : Nat) (imageModelName : String)
    (initialImagePrompt : String) (style era : String)
    (inputAspectRatio : AspectRatio) : GeminiImageRequest :=
  { model := imageModelName
    prompt := initialImagePrompt ++ ", in the art style of " ++ style ++ ", " ++ era ++ " era."
    count := 1
    aspectRatio := apiAspectRatioValue inputAspectRatio
    seed := FIXED_IMAGE_SEED
    outputFormat := "b64-json" }

/-- Retry bound of the image/scene retry loops: maxRetries = 2. -/
def maxRetries : Nat := 2

/-- The retry loop of generateImageForPrompt in src/services/geminiService.ts
(lines 317-363), with the network call replaced by the per-attempt outcome
oracle.  `attempt` is the index of the next attempt, `fuel` the number of
loop iterations left (maxRetries + 1 - attempt), `lastErr` the message of
the last failed attempt.  Returns the call's result together with the
number of attempts actually performed. -/
def geminiImageRetryLoop (outcome : Nat → Except String String) :
    Nat → Nat → Option String → Except String String × Nat
  | attempt, 0, lastErr =>
    (Except.error ("Failed to generate image after " ++ toString (maxRetries + 1)
       ++ " attempts. Last error: " ++ lastErr.getD "undefined"), attempt)
  | attempt, fuel + 1, _lastErr =>
    match outcome attempt with
    | Except.ok url => (Except.ok url, attempt + 1)
    | Except.error e => geminiImageRetryLoop outcome (attempt + 1) fuel (some e)

/-- generateImageForPrompt of src/services/geminiService.ts: run the retry
loop for maxRetries + 1 = 3 attempts starting from attempt 0. -/
def generateImageForPrompt (outcome : Nat → Except String String) :
    Except String String × Nat :=
  geminiImageRetryLoop outcome 0 (maxRetries + 1) none

/-- The generateImageForPrompt variant of src/unnamed/part_001 (lines
285-330): a single generateImages call wrapped in one try/catch, no retry
loop.  Returns the result and the number of attempts performed (always 1). -/
def generateImageForPromptPart001 (outcome : Except String String) :
    Except String String × Nat :=
  match outcome with
  | Except.ok url => (Except.ok ("data:image/jpeg;base64," ++ url), 1)
  | Except.error e => (Except.error ("Gemini image generation failed. " ++ e), 1)

/-- Map with the 0-based index, modelling JS Array.prototype.map with an
index argument. -/
def mapWithIndex (f : Nat → α → β) : Nat → List α → List β
  | _, [] => []
  | i, a :: l => f i a :: mapWithIndex f (i + 1) l

theorem mapWithIndex_length (f : Nat → α → β) (i : Nat) (l : List α) :
    (mapWithIndex f i l).length = l.length := by
  induction l generalizing i with
  | nil => rfl
  | cons a l ih => simp [mapWithIndex, ih]

theorem mapWithIndex_get (f : Nat → α → β) (i : Nat) (l : List α)
    (j : Nat) (h : j < l.length)
    (h' : j < (mapWithIndex f i l).length) :
    (mapWithIndex f i l).get ⟨j, h'⟩ = f (i + j) (l.get ⟨j, h⟩) := by
  induction l generalizing i j with
  | nil => exact absurd h (Nat.not_lt_zero j)
  | cons a l ih =>
    cases j with
    | zero => simp [mapWithIndex]
    | succ j =>
      have hj : j < l.length := Nat.lt_of_succ_lt_succ h
      have hj' : j < (mapWithIndex f (i + 1) l).length := by
        rw [mapWithIndex_length]; exact hj
      simp only [mapWithIndex, List.get_cons_succ]
      rw [ih (i + 1) j hj hj']
      congr 1
      omega

/-- Post-parse repair mapping of generateScenePromptsWithPollinations in
src/services/geminiService.ts (lines 188-193): scene_number filled from the
1-based index when falsy, style/era suffix appended to the prompt, caption
and dialogues forced off when includeCaptions is false (and dialogues also
when the raw value is not an array). -/
def pollinationsFormatScene (options : StoryInputOptions) (index : Nat)
    (panel : RawScene) : ComicPanelData :=
  { scene_number := jsOrNat panel.scene_number (index + 1)
    image_prompt := panel.image_prompt ++ ", in the style of " ++ options.style
      ++ ", " ++ options.era
    caption := if options.includeCaptions then panel.caption else none
    dialogues :=
      match options.includeCaptions, panel.dialogues with
      | true, some ds => ds
      | _, _ => []
    imageUrl := none }

/-- Post-parse repair mapping of generateScenePrompts in
src/services/geminiService.ts (lines 279-284): same repair, but the image
prompt is passed through unchanged (no style/era suffix at this stage). -/
def geminiFormatScene (options : StoryInputOptions) (index : Nat)
    (panel : RawScene) : ComicPanelData :=
  { scene_number := jsOrNat panel.scene_number (index + 1)
    image_prompt := panel.image_prompt
    caption := if options.includeCaptions then panel.caption else none
    dialogues :=
      match options.includeCaptions, panel.dialogues with
      | true, some ds => ds
      | _, _ => []
    imageUrl := none }

/-- generateScenePrompts of src/services/geminiService.ts applied to an
already-parsed scenes array: the map of lines 279-284. -/
def generateScenePrompts (options : StoryInputOptions) (scenes : List RawScene) :
    List ComicPanelData :=
  mapWithIndex (geminiFormatScene options) 0 scenes

/-- Result shape of the mapping in the generateScenePromptsWithPollinations
variant of src/unnamed/part_002 (lines 106-110): the object spread keeps the
raw caption and raw dialogues fields untouched. -/
structure SpreadScene where
  scene_number : Nat
  image_prompt : String
  caption : Option String
  dialogues : Option (List String)
deriving DecidableEq, Repr

/-- The per-entry mapping of the generateScenePromptsWithPollinations variant
in src/unnamed/part_002 (lines 106-110): spread of the raw panel, with only
scene_number repaired and the style/era suffix appended to the prompt; the
raw caption and dialogues values pass through regardless of the options. -/
def part002FormatScene (options : StoryInputOptions) (index : Nat)
    (panel : RawScene) : SpreadScene :=
  { scene_number := jsOrNat panel.scene_number (index + 1)
    image_prompt := panel.image_prompt ++ ", in the style of " ++ options.style
      ++ ", " ++ options.era
    caption := panel.caption
    dialogues := panel.dialogues }

/-- Scene mapping of src/unnamed/part_002 over a parsed response. -/
def generateScenePromptsWithPollinationsPart002 (options : StoryInputOptions)
    (scenes : List RawScene) : List SpreadScene :=
  mapWithIndex (part002FormatScene options) 0 scenes

/-- The retry loop of generateScenePromptsWithPollinations in
src/services/geminiService.ts (lines 163-204).  `outcome attempt` is the
parse result of that attempt (`none` models a network error, a non-2xx
response or an unparsable body).  An attempt succeeds only when the parsed
array is non-empty (an empty array throws inside the try), in which case
the formatted panels are returned; when the fuel (maxRetries + 1 attempts)
is exhausted, an empty array is returned as the fallback signal. -/
def pollinationsSceneLoop (options : StoryInputOptions)
    (outcome : Nat → Option (List RawScene)) : Nat → Nat → List ComicPanelData
  | _attempt, 0 => []
  | attempt, fuel + 1 =>
    match outcome attempt with
    | some (p :: ps) => mapWithIndex (pollinationsFormatScene options) 0 (p :: ps)
    | _ => pollinationsSceneLoop options outcome (attempt + 1) fuel

/-- generateScenePromptsWithPollinations of src/services/geminiService.ts:
run the attempt loop starting at attempt 0 with maxRetries + 1 attempts. -/
def generateScenePromptsWithPollinations (options : StoryInputOptions)
    (outcome : Nat → Option (List RawScene)) : List ComicPanelData :=
  pollinationsSceneLoop options outcome 0 (maxRetries + 1)

/-- A character name bound to its derived visual description (src/types). -/
structure CharacterDescription where
  name : String
  description : String
deriving DecidableEq, Repr

/-- One iteration of the description pre-pass of
generateCharacterDescriptions in src/unnamed/part_002 (lines 121-141) and
src/unnamed/part_000 (lines 442-463): a reference without a name or without
an image yields null; otherwise the per-character request either yields a
description or fails, and a failure yields null for that character only
(`outcome char = none` models the caught per-character error). -/
def describeCharacter (outcome : CharacterReference → Option String)
    (char : CharacterReference) : Option CharacterDescription :=
  if char.imageDataUrl = "" ∨ char.name = "" then none
  else (outcome char).map (fun d => { name := char.name, description := d })

/-- generateCharacterDescriptions: map every reference through its own
request and keep the non-null results, in order. -/
def generateCharacterDescriptions (outcome : CharacterReference → Option String)
    (references : List CharacterReference) : List CharacterDescription :=
  references.filterMap (describeCharacter outcome)

/-- Character-canon entry returned by the structured backend
(CharacterSheetDetails in src/types): the description may live in the
`appearance` or in the `IVAP` field. -/
structure CharacterSheetDetails where
  appearance : Option String
  IVAP : Option String
deriving DecidableEq, Repr

/-- The canon is a JS object; modelled as an association list whose keys
are the character names, in insertion order (Object.keys order). -/
def canonLookup (canon : List (String × CharacterSheetDetails)) (name : String) :
    Option CharacterSheetDetails :=
  (canon.find? (fun kv => kv.fst == name)).map Prod.snd

/-- Lower-casing used by the case-insensitive name match, modelling JS
String.prototype.toLowerCase: every character mapped to its lower case. -/
def toLowerStr (s : String) : String := String.mk (s.data.map Char.toLower)

/-- Character names appearing in a panel's prompt, from src/App.tsx lines
94-100: Object.keys(characterCanon) filtered by case-insensitive substring
match against the panel's image prompt. -/
def sceneCharacterNames (canon : List (String × CharacterSheetDetails))
    (image_prompt : String) : List String :=
  (canon.map Prod.fst).filter
    (fun name => strContains (toLowerStr image_prompt) (toLowerStr name))

/-- The description used for one matched character in generateImageForPrompt
of src/unnamed/part_000 (lines 230-238):
`characterCanon[name]?.appearance || characterCanon[name]?.IVAP || ""`. -/
def descFor (canon : List (String × CharacterSheetDetails)) (name : String) : String :=
  match canonLookup canon name with
  | none => ""
  | some sheet => jsOrStr sheet.appearance (jsOrStr sheet.IVAP "")

/-- JS Array.prototype.join with a separator. -/
def joinSep (sep : String) : List String → String
  | [] => ""
  | [s] => s
  | s :: rest => s ++ (sep ++ joinSep sep rest)

/-- The non-empty descriptions of the matched characters, in match order
(the `.map(...).filter(Boolean)` of src/unnamed/part_000 lines 231-234). -/
def sceneDescs (canon : List (String × CharacterSheetDetails))
    (names : List String) : List String :=
  (names.map (descFor canon)).filter (fun s => s != "")

/-- The final prompt built by generateImageForPrompt of src/unnamed/part_000
(lines 228-238): the style/era-augmented prompt, with the joined matched
descriptions prepended when at least one is non-empty. -/
def finalImagePrompt (canon : List (String × CharacterSheetDetails))
    (names : List String) (image_prompt style era : String) : String :=
  let augmented := image_prompt ++ ", in the style of " ++ style ++ ", " ++ era
  if names.isEmpty then augmented
  else
    let descs := joinSep "\n" (sceneDescs canon names)
    if descs = "" then augmented else descs ++ ("\n" ++ augmented)

/-- The prompt sent to the image backend for one panel: src/App.tsx computes
the matched names (lines 94-100) and passes them with the canon to
generateImageForPrompt of src/unnamed/part_000. -/
def renderedPromptForPanel (canon : List (String × CharacterSheetDetails))
    (image_prompt style era : String) : String :=
  finalImagePrompt canon (sceneCharacterNames canon image_prompt) image_prompt style era

/-- The single fallback panel synthesized by handleComicGeneration in
src/App.tsx (lines 60-68) when decomposition yields no scenes. -/
def fallbackScenePrompts (options : StoryInputOptions) : List ComicPanelData :=
  [{ scene_number := 1
     image_prompt := options.story ++ ", in the style of " ++ options.style
       ++ ", " ++ options.era
     caption := some "Fallback: Full Story"
     dialogues := ["Scene generation failed."]
     imageUrl := none }]

/-- The warning recorded together with the fallback panel (src/App.tsx line 61). -/
def fallbackWarning : String :=
  "Warning: The AI could not break the story into scenes. Generating a single image from the full story text instead."

/-- Fallback logic of handleComicGeneration in src/App.tsx (lines 59-68):
an empty decomposition result is replaced by the single fallback panel and
a warning message is recorded; a non-empty result passes through with no
warning, and in both cases the run proceeds to rendering. -/
def applyFallback (options : StoryInputOptions)
    (scenePrompts : List ComicPanelData) : List ComicPanelData × Option String :=
  if scenePrompts.isEmpty then (fallbackScenePrompts options, some fallbackWarning)
  else (scenePrompts, none)

/-- In-place update of the PanelRecord collection after one render attempt
(src/App.tsx lines 117-124): every record whose scene_number equals the
rendered panel's scene_number gets the new imageUrl; all other records pass
through unchanged. -/
def updatePanels (panels : List ComicPanelData) (sn : Nat) (url : String) :
    List ComicPanelData :=
  panels.map (fun p => if p.scene_number = sn then { p with imageUrl := some url } else p)

/-- The per-panel line appended to the accumulated run-level error string
(src/App.tsx line 128). -/
def panelErrMessage (sn : Nat) (msg : String) : String :=
  "Error on panel " ++ toString sn ++ ": " ++ msg

/-- The orchestrator state visible to the caller: the PanelRecord collection
and the lines of the accumulated error string (the code joins them with a
newline and the UI splits on newlines, so the list of lines is the same
data). -/
structure RunState where
  panels : List ComicPanelData
  errors : List String
deriving DecidableEq, Repr

/-- One iteration of the rendering loop of handleComicGeneration in
src/App.tsx (lines 80-132): on success the record with the panel's
scene_number is resolved; on failure it is set to the "error" sentinel and
a message naming the panel is appended to the error log. -/
def renderStep (st : RunState) (panel : ComicPanelData)
    (outcome : Except String String) : RunState :=
  match outcome with
  | Except.ok url => { st with panels := updatePanels st.panels panel.scene_number url }
  | Except.error msg =>
    { panels := updatePanels st.panels panel.scene_number "error"
      errors := st.errors ++ [panelErrMessage panel.scene_number msg] }

/-- The rendering loop: panels are processed strictly sequentially in array
order; `outcome i` is the result of the image call for the panel at index
`i` (the catch in the loop body contains every failure, so the loop always
runs to the end of the list). -/
def renderLoop (outcome : Nat → Except String String) :
    Nat → List ComicPanelData → RunState → RunState
  | _, [], st => st
  | i, p :: rest, st => renderLoop outcome (i + 1) rest (renderStep st p (outcome i))

/-- The rendering phase of handleComicGeneration: start from the pending
records (`{ ...p, imageUrl: undefined }`, src/App.tsx line 70) and an empty
error log, then run the loop over all panels. -/
def runRendering (scenePrompts : List ComicPanelData)
    (outcome : Nat → Except String String) : RunState :=
  renderLoop outcome 0 scenePrompts
    { panels := scenePrompts.map (fun p => { p with imageUrl := none })
      errors := [] }

/-- The three externally visible states of a PanelRecord's image slot. -/
inductive PanelStatus where
  | pending
  | failed
  | resolved
deriving DecidableEq, Repr

/-- Classify a record's image slot: no imageUrl is pending, the "error"
sentinel is failed, anything else is resolved. -/
def panelStatus (p : ComicPanelData) : PanelStatus :=
  match p.imageUrl with
  | none => PanelStatus.pending
  | some url => if url = "error" then PanelStatus.failed else PanelStatus.resolved

/-- A sample validated options record used by the witnesses. -/
def sampleOptions : StoryInputOptions :=
  { story := "A lone robot wanders the ruins"
    style := "noir"
    era := "1950s"
    aspectRatio := AspectRatio.square
    includeCaptions := false
    numPages := 3
    imageModel := "flux"
    textModel := "llamascout"
    generationService := GenerationService.pollinations
    characterReferences := [] }

theorem pollinationsSceneLoop_all_fail (options : StoryInputOptions)
    (outcome : Nat → Option (List RawScene))
    (h : ∀ a, outcome a = none ∨ outcome a = some []) :
    ∀ fuel attempt, pollinationsSceneLoop options outcome attempt fuel = [] := by
  intro fuel
  induction fuel with
  | zero => intro attempt; rfl
  | succ fuel ih =>
    intro attempt
    rcases h attempt with ha | ha <;>
      simp [pollinationsSceneLoop, ha, ih (attempt + 1)]

/-- C1: for every run in which scene decomposition yields an empty list
(every attempt produced a network error, an unparsable response, or an
empty array), the orchestrator's fallback produces exactly one panel whose
image prompt is the original story text augmented with the style and era
tags, records the warning message, and hands a non-empty panel list to the
rendering phase (the run continues). -/
theorem C1_decomposition_fallback (options : StoryInputOptions)
    (outcome : Nat → Option (List RawScene))
    (h : ∀ a, outcome a = none ∨ outcome a = some []) :
    generateScenePromptsWithPollinations options outcome = [] ∧
    (applyFallback options (generateScenePromptsWithPollinations options outcome)).fst.length = 1 ∧
    (∀ p ∈ (applyFallback options (generateScenePromptsWithPollinations options outcome)).fst,
      p.image_prompt = options.story ++ ", in the style of " ++ options.style
        ++ ", " ++ options.era) ∧
    (applyFallback options (generateScenePromptsWithPollinations options outcome)).snd
      = some fallbackWarning ∧
    (applyFallback options (generateScenePromptsWithPollinations options outcome)).fst ≠ [] := by
  have hempty : generateScenePromptsWithPollinations options outcome = [] :=
    pollinationsSceneLoop_all_fail options outcome h (maxRetries + 1) 0
  refine ⟨hempty, ?_, ?_, ?_, ?_⟩ <;>
    simp [hempty, applyFallback, fallbackScenePrompts]

/-- Witness for C1 at a concrete input: every attempt fails outright. -/
theorem C1_decomposition_fallback_witness :
    generateScenePromptsWithPollinations sampleOptions (fun _ => none) = [] ∧
    (applyFallback sampleOptions
      (generateScenePromptsWithPollinations sampleOptions (fun _ => none))).fst.length = 1 ∧
    (∀ p ∈ (applyFallback sampleOptions
        (generateScenePromptsWithPollinations sampleOptions (fun _ => none))).fst,
      p.image_prompt = sampleOptions.story ++ ", in the style of " ++ sampleOptions.style
        ++ ", " ++ sampleOptions.era) ∧
    (applyFallback sampleOptions
      (generateScenePromptsWithPollinations sampleOptions (fun _ => none))).snd
      = some fallbackWarning ∧
    (applyFallback sampleOptions
      (generateScenePromptsWithPollinations sampleOptions (fun _ => none))).fst ≠ [] :=
  C1_decomposition_fallback sampleOptions (fun _ => none) (fun _ => Or.inl rfl)

/-- C9: the synthesized fallback panel always has scene number 1, the fixed
caption "Fallback: Full Story" and the single dialogue line
"Scene generation failed.", even when the caption inclusion flag is false,
so the fallback panel carries a caption although decomposed panels would
have theirs suppressed. -/
theorem C9_fallback_ignores_caption_flag (options : StoryInputOptions)
    (_h : options.includeCaptions = false) :
    (applyFallback options []).fst =
      [{ scene_number := 1
         image_prompt := options.story ++ ", in the style of " ++ options.style
           ++ ", " ++ options.era
         caption := some "Fallback: Full Story"
         dialogues := ["Scene generation failed."]
         imageUrl := none }] ∧
    (∀ p ∈ (applyFallback options []).fst,
      p.scene_number = 1 ∧ p.caption = some "Fallback: Full Story" ∧
      p.dialogues = ["Scene generation failed."] ∧ p.caption ≠ none) := by
  refine ⟨?_, ?_⟩ <;> simp [applyFallback, fallbackScenePrompts]

/-- Witness for C9 at a concrete input with the caption flag off. -/
theorem C9_fallback_ignores_caption_flag_witness :
    sampleOptions.includeCaptions = false ∧
    (applyFallback sampleOptions []).fst =
      [{ scene_number := 1
         image_prompt := sampleOptions.story ++ ", in the style of " ++ sampleOptions.style
           ++ ", " ++ sampleOptions.era
         caption := some "Fallback: Full Story"
         dialogues := ["Scene generation failed."]
         imageUrl := none }] ∧
    (∀ p ∈ (applyFallback sampleOptions []).fst,
      p.scene_number = 1 ∧ p.caption = some "Fallback: Full Story" ∧
      p.dialogues = ["Scene generation failed."] ∧ p.caption ≠ none) :=
  ⟨rfl, C9_fallback_ignores_caption_flag sampleOptions rfl⟩

/-- C4 counterexample: the Pollinations image request of the
src/unnamed/part_001 variant carries no seed query parameter at all, while
the src/services/geminiService.ts request does, so not every outbound
image-generation request carries the fixed seed. -/
theorem C4_counterexample :
    ((pollinationsImageParamsPart001 "flux" AspectRatio.square).map Prod.fst).contains "seed"
      = false ∧
    ((pollinationsImageParams "flux" AspectRatio.square).map Prod.fst).contains "seed"
      = true := by
  decide

/-- C4 (amended): in src/services/geminiService.ts every outbound image
request carries the constant FIXED_IMAGE_SEED - the Pollinations URL always
includes the seed parameter, and the Gemini generateImages request built at
any retry attempt has seed = FIXED_IMAGE_SEED and is identical across
attempts and across calls with identical arguments; the part_001 variant's
Pollinations request instead omits the seed parameter. -/
theorem C4_fixed_seed_amended :
    (∀ model aspectRatio,
      ("seed", toString FIXED_IMAGE_SEED) ∈ pollinationsImageParams model aspectRatio) ∧
    (∀ attempt model prompt style era aspectRatio,
      (geminiImageRequestAt attempt model prompt style era aspectRatio).seed
        = FIXED_IMAGE_SEED) ∧
    (∀ a b model prompt style era aspectRatio,
      geminiImageRequestAt a model prompt style era aspectRatio
        = geminiImageRequestAt b model prompt style era aspectRatio) ∧
    (∀ model aspectRatio,
      ∀ v, ("seed", v) ∉ pollinationsImageParamsPart001 model aspectRatio) := by
  refine ⟨?_, ?_, ?_, ?_⟩
  · intro model ar
    simp [pollinationsImageParams]
  · intro _ _ _ _ _ _
    rfl
  · intro _ _ _ _ _ _ _
    rfl
  · intro model ar v
    cases ar <;> simp [pollinationsImageParamsPart001, pollinationsDims]

/-- C5 counterexample: the generateImageForPrompt variant of
src/unnamed/part_001 has no retry loop, so a call whose attempt fails has
performed exactly 1 attempt, not 3. -/
theorem C5_counterexample :
    (generateImageForPromptPart001 (Except.error "network failure")).snd = 1 ∧
    (1 : Nat) ≠ 3 ∧
    (generateImageForPromptPart001 (Except.error "network failure")).fst
      = Except.error "Gemini image generation failed. network failure" := by
  refine ⟨rfl, by decide, rfl⟩

/-- C5 (amended): in src/services/geminiService.ts a panel image call whose
every attempt fails performs exactly maxRetries + 1 = 3 attempts and then
fails with an error carrying the last attempt's failure message; the
part_001 variant instead performs a single attempt. -/
theorem C5_retry_bound_amended (outcome : Nat → Except String String)
    (e : Nat → String)
    (h : ∀ a, a < maxRetries + 1 → outcome a = Except.error (e a)) :
    generateImageForPrompt outcome =
      (Except.error ("Failed to generate image after 3 attempts. Last error: " ++ e 2), 3) := by
  have h0 := h 0 (by decide)
  have h1 := h 1 (by decide)
  have h2 := h 2 (by decide)
  show geminiImageRetryLoop outcome 0 (maxRetries + 1) none = _
  rw [show maxRetries + 1 = 3 from rfl]
  simp only [geminiImageRetryLoop, h0, h1, h2]
  rfl

/-- Witness for C5 (amended) at a concrete all-failing outcome. -/
theorem C5_retry_bound_amended_witness :
    generateImageForPrompt (fun a => Except.error ("boom " ++ toString a)) =
      (Except.error ("Failed to generate image after 3 attempts. Last error: "
        ++ ("boom " ++ toString 2)), 3) :=
  C5_retry_bound_amended (fun a => Except.error ("boom " ++ toString a))
    (fun a => "boom " ++ toString a) (fun _ _ => rfl)

theorem mapWithIndex_mem (f : Nat → α → β) (i : Nat) (l : List α) (b : β)
    (h : b ∈ mapWithIndex f i l) : ∃ j a, a ∈ l ∧ b = f j a := by
  induction l generalizing i with
  | nil => cases h
  | cons x l ih =>
    rcases List.mem_cons.mp h with hb | hb
    · exact ⟨i, x, List.mem_cons_self x l, hb⟩
    · obtain ⟨j, a, ha, hba⟩ := ih (i + 1) hb
      exact ⟨j, a, List.mem_cons_of_mem x ha, hba⟩

theorem pollinationsSceneLoop_mem (options : StoryInputOptions)
    (outcome : Nat → Option (List RawScene)) :
    ∀ fuel attempt p, p ∈ pollinationsSceneLoop options outcome attempt fuel →
      ∃ l, p ∈ mapWithIndex (pollinationsFormatScene options) 0 l := by
  intro fuel
  induction fuel with
  | zero => intro attempt p hp; cases hp
  | succ fuel ih =>
    intro attempt p hp
    rcases ho : outcome attempt with _ | l
    · rw [pollinationsSceneLoop, ho] at hp
      exact ih (attempt + 1) p hp
    · cases l with
      | nil =>
        rw [pollinationsSceneLoop, ho] at hp
        exact ih (attempt + 1) p hp
      | cons x xs =>
        rw [pollinationsSceneLoop, ho] at hp
        exact ⟨x :: xs, hp⟩

/-- A sample raw backend entry carrying a caption and dialogues. -/
def rawSceneSample : RawScene :=
  { scene_number := some 1
    image_prompt := "A dark alley at night"
    caption := some "Once upon a time"
    dialogues := some ["Zara: hello"] }

/-- C2 counterexample: with the caption flag false, the
generateScenePromptsWithPollinations variant of src/unnamed/part_002
passes the backend's raw caption and dialogues through unchanged, so not
every scene decomposition function nulls them out. -/
theorem C2_counterexample :
    sampleOptions.includeCaptions = false ∧
    generateScenePromptsWithPollinationsPart002 sampleOptions [rawSceneSample]
      = [{ scene_number := 1
           image_prompt := "A dark alley at night, in the style of noir, 1950s"
           caption := some "Once upon a time"
           dialogues := some ["Zara: hello"] }] := by
  constructor
  · rfl
  · rfl

/-- C2 (amended): in src/services/geminiService.ts, when the caption
inclusion flag is false, every PanelSpec produced by either scene
decomposition function has caption = null and dialogues = [], regardless of
the raw backend response; the part_002/part_000 Pollinations variant
instead spreads the raw entry and keeps the backend's caption/dialogues. -/
theorem C2_caption_suppression_amended (options : StoryInputOptions)
    (h : options.includeCaptions = false)
    (outcome : Nat → Option (List RawScene)) (scenes : List RawScene) :
    (∀ p ∈ generateScenePromptsWithPollinations options outcome,
      p.caption = none ∧ p.dialogues = []) ∧
    (∀ p ∈ generateScenePrompts options scenes,
      p.caption = none ∧ p.dialogues = []) := by
  constructor
  · intro p hp
    obtain ⟨l, hl⟩ := pollinationsSceneLoop_mem options outcome (maxRetries + 1) 0 p hp
    obtain ⟨j, a, _, rfl⟩ := mapWithIndex_mem _ 0 l p hl
    constructor
    · simp [pollinationsFormatScene, h]
    · simp [pollinationsFormatScene, h]
  · intro p hp
    obtain ⟨j, a, _, rfl⟩ := mapWithIndex_mem _ 0 scenes p hp
    constructor
    · simp [geminiFormatScene, h]
    · simp [geminiFormatScene, h]

/-- Witness for C2 (amended) at a concrete input. -/
theorem C2_caption_suppression_amended_witness :
    (∀ p ∈ generateScenePromptsWithPollinations sampleOptions (fun _ => some [rawSceneSample]),
      p.caption = none ∧ p.dialogues = []) ∧
    (∀ p ∈ generateScenePrompts sampleOptions [rawSceneSample],
      p.caption = none ∧ p.dialogues = []) :=
  C2_caption_suppression_amended sampleOptions rfl (fun _ => some [rawSceneSample])
    [rawSceneSample]

/-- C3: for a valid options record with target panel count N and a
decomposition response of exactly N well-formed entries (each entry's
scene_number either absent or equal to its 1-based position, as the
instruction demands), both scene decomposition functions of
src/services/geminiService.ts return exactly N PanelSpecs whose scene
numbers are 1..N in response-array order; an absent scene_number is filled
with the entry's 1-based array index. -/
theorem C3_scene_numbers (options : StoryInputOptions) (scenes : List RawScene)
    (N : Nat) (outcome : Nat → Option (List RawScene))
    (hN : 0 < N) (hlen : scenes.length = N)
    (hout : outcome 0 = some scenes)
    (hwf : ∀ i (h : i < scenes.length),
      (scenes.get ⟨i, h⟩).scene_number = none ∨
      (scenes.get ⟨i, h⟩).scene_number = some (i + 1)) :
    (generateScenePrompts options scenes).length = N ∧
    (∀ i (h : i < (generateScenePrompts options scenes).length),
      ((generateScenePrompts options scenes).get ⟨i, h⟩).scene_number = i + 1) ∧
    generateScenePromptsWithPollinations options outcome
      = mapWithIndex (pollinationsFormatScene options) 0 scenes ∧
    (generateScenePromptsWithPollinations options outcome).length = N ∧
    (∀ i (h : i < (generateScenePromptsWithPollinations options outcome).length),
      ((generateScenePromptsWithPollinations options outcome).get ⟨i, h⟩).scene_number
        = i + 1) := by
  have hpol : generateScenePromptsWithPollinations options outcome
      = mapWithIndex (pollinationsFormatScene options) 0 scenes := by
    cases scenes with
    | nil => rw [List.length_nil] at hlen; omega
    | cons x xs =>
      show pollinationsSceneLoop options outcome 0 (maxRetries + 1) = _
      rw [show maxRetries + 1 = 2 + 1 from rfl, pollinationsSceneLoop, hout]
  have hnum : ∀ a (i : Nat), a ∈ scenes →
      (a.scene_number = none ∨ a.scene_number = some (i + 1)) →
      jsOrNat a.scene_number (i + 1) = i + 1 := by
    intro a i _ hcase
    rcases hcase with hc | hc <;> simp [hc, jsOrNat]
  refine ⟨?_, ?_, hpol, ?_, ?_⟩
  · rw [show generateScenePrompts options scenes
      = mapWithIndex (geminiFormatScene options) 0 scenes from rfl,
      mapWithIndex_length, hlen]
  · intro i h
    have hi : i < scenes.length := by
      have h2 := h
      rw [show generateScenePrompts options scenes
        = mapWithIndex (geminiFormatScene options) 0 scenes from rfl,
        mapWithIndex_length] at h2
      exact h2
    have h3 : i < (mapWithIndex (geminiFormatScene options) 0 scenes).length := by
      rw [mapWithIndex_length]; exact hi
    show ((mapWithIndex (geminiFormatScene options) 0 scenes).get ⟨i, h3⟩).scene_number = i + 1
    rw [mapWithIndex_get _ 0 scenes i hi h3]
    simp only [geminiFormatScene, Nat.zero_add]
    rcases hwf i hi with hc | hc <;> rw [hc] <;> simp [jsOrNat]
  · rw [hpol, mapWithIndex_length, hlen]
  · intro i h
    have hi : i < scenes.length := by
      have h2 := h
      rw [hpol, mapWithIndex_length] at h2
      exact h2
    rw [List.get_of_eq hpol ⟨i, h⟩]
    rw [mapWithIndex_get _ 0 scenes i hi]
    simp only [pollinationsFormatScene, Nat.zero_add]
    rcases hwf i hi with hc | hc <;> rw [hc] <;> simp [jsOrNat]

/-- A two-entry well-formed response used by the C3 witness: the first
entry has no scene_number, the second carries its 1-based position. -/
def rawScenesTwo : List RawScene :=
  [{ scene_number := none
     image_prompt := "The robot powers on"
     caption := none
     dialogues := some [] },
   { scene_number := some 2
     image_prompt := "The robot leaves the factory"
     caption := some "Later"
     dialogues := none }]

/-- Witness for C3 at a concrete two-entry response. -/
theorem C3_scene_numbers_witness :
    (generateScenePrompts sampleOptions rawScenesTwo).length = 2 ∧
    (∀ i (h : i < (generateScenePrompts sampleOptions rawScenesTwo).length),
      ((generateScenePrompts sampleOptions rawScenesTwo).get ⟨i, h⟩).scene_number = i + 1) ∧
    generateScenePromptsWithPollinations sampleOptions (fun _ => some rawScenesTwo)
      = mapWithIndex (pollinationsFormatScene sampleOptions) 0 rawScenesTwo ∧
    (generateScenePromptsWithPollinations sampleOptions (fun _ => some rawScenesTwo)).length
      = 2 ∧
    (∀ i (h : i < (generateScenePromptsWithPollinations sampleOptions
        (fun _ => some rawScenesTwo)).length),
      ((generateScenePromptsWithPollinations sampleOptions
        (fun _ => some rawScenesTwo)).get ⟨i, h⟩).scene_number = i + 1) :=
  C3_scene_numbers sampleOptions rawScenesTwo 2 (fun _ => some rawScenesTwo)
    (by decide) rfl rfl (by decide)

/-- C8: in the character-description pre-pass, a failed description request
for one character only drops that character from the returned lookup: the
function never throws, and the descriptions of the surrounding characters
are exactly those computed without the failing character. -/
theorem C8_description_isolation (outcome : CharacterReference → Option String)
    (l1 l2 : List CharacterReference) (c : CharacterReference)
    (h : outcome c = none) :
    describeCharacter outcome c = none ∧
    generateCharacterDescriptions outcome (l1 ++ c :: l2)
      = generateCharacterDescriptions outcome l1
        ++ generateCharacterDescriptions outcome l2 := by
  have hc : describeCharacter outcome c = none := by
    simp [describeCharacter, h]
  refine ⟨hc, ?_⟩
  simp [generateCharacterDescriptions, List.filterMap_append, List.filterMap_cons, hc]

/-- Concrete references for the C8 witness. -/
def refAnn : CharacterReference := { name := "Ann", imageDataUrl := "data:image/png;base64,AAA" }

/-- Concrete failing reference for the C8 witness. -/
def refBob : CharacterReference := { name := "Bob", imageDataUrl := "data:image/png;base64,BBB" }

/-- Concrete references for the C8 witness. -/
def refCid : CharacterReference := { name := "Cid", imageDataUrl := "data:image/png;base64,CCC" }

/-- Per-character outcome oracle for the C8 witness: only Bob's request fails. -/
def outcomeNoBob : CharacterReference → Option String :=
  fun r => if r.name = "Bob" then none else some ("description of " ++ r.name)

/-- Witness for C8 at a concrete input where only Bob's request fails. -/
theorem C8_description_isolation_witness :
    describeCharacter outcomeNoBob refBob = none ∧
    generateCharacterDescriptions outcomeNoBob ([refAnn] ++ refBob :: [refCid])
      = generateCharacterDescriptions outcomeNoBob [refAnn]
        ++ generateCharacterDescriptions outcomeNoBob [refCid] :=
  C8_description_isolation outcomeNoBob [refAnn] [refCid] refBob (by decide)

/-- C10: after each render attempt the orchestrator updates the PanelRecord
collection by scene_number equality, not array position: the record at any
position whose scene_number equals the rendered panel's gets exactly its
imageUrl field replaced, every other record is returned unchanged, and when
scene numbers are pairwise distinct exactly one record matches. -/
theorem C10_update_by_scene_number (panels : List ComicPanelData) (sn : Nat)
    (url : String)
    (hnd : (panels.map ComicPanelData.scene_number).Nodup)
    (hmem : sn ∈ panels.map ComicPanelData.scene_number) :
    (updatePanels panels sn url).length = panels.length ∧
    (∀ i (h : i < panels.length) (h2 : i < (updatePanels panels sn url).length),
      (updatePanels panels sn url).get ⟨i, h2⟩ =
        if (panels.get ⟨i, h⟩).scene_number = sn
        then { panels.get ⟨i, h⟩ with imageUrl := some url }
        else panels.get ⟨i, h⟩) ∧
    panels.countP (fun p => p.scene_number == sn) = 1 := by
  refine ⟨by simp [updatePanels], ?_, ?_⟩
  · intro i h h2
    simp [updatePanels]
  · have hcp : panels.countP (fun p => p.scene_number == sn)
        = (panels.map ComicPanelData.scene_number).countP (fun n => n == sn) := by
      rw [List.countP_map]
      rfl
    rw [hcp]
    exact List.count_eq_one_of_mem hnd hmem

/-- Two concrete pending records with distinct scene numbers for the C10
witness. -/
def panelsTwo : List ComicPanelData :=
  [{ scene_number := 1, image_prompt := "p1", caption := none, dialogues := [],
     imageUrl := none },
   { scene_number := 2, image_prompt := "p2", caption := some "c2",
     dialogues := ["d"], imageUrl := none }]

/-- Witness for C10 at a concrete two-record collection. -/
theorem C10_update_by_scene_number_witness :
    (updatePanels panelsTwo 2 "url2").length = panelsTwo.length ∧
    (∀ i (h : i < panelsTwo.length) (h2 : i < (updatePanels panelsTwo 2 "url2").length),
      (updatePanels panelsTwo 2 "url2").get ⟨i, h2⟩ =
        if (panelsTwo.get ⟨i, h⟩).scene_number = 2
        then { panelsTwo.get ⟨i, h⟩ with imageUrl := some "url2" }
        else panelsTwo.get ⟨i, h⟩) ∧
    panelsTwo.countP (fun p => p.scene_number == 2) = 1 :=
  C10_update_by_scene_number panelsTwo 2 "url2" (by decide) (by decide)

/-- Five pending panels with scene numbers 1..5 and arbitrary content. -/
def fivePanels (q : Nat → String) (c : Nat → Option String) (d : Nat → List String) :
    List ComicPanelData :=
  [{ scene_number := 1, image_prompt := q 1, caption := c 1, dialogues := d 1, imageUrl := none },
   { scene_number := 2, image_prompt := q 2, caption := c 2, dialogues := d 2, imageUrl := none },
   { scene_number := 3, image_prompt := q 3, caption := c 3, dialogues := d 3, imageUrl := none },
   { scene_number := 4, image_prompt := q 4, caption := c 4, dialogues := d 4, imageUrl := none },
   { scene_number := 5, image_prompt := q 5, caption := c 5, dialogues := d 5, imageUrl := none }]

/-- Outcome oracle where the image call of the panel at index 2 (the third
panel) exhausts its attempts and fails with message `e`, and every other
panel's call succeeds. -/
def failThirdOutcome (u : Nat → String) (e : String) : Nat → Except String String :=
  fun i => if i = 2 then Except.error e else Except.ok (u i)

/-- C6: in a 5-panel run where panel 3's image call fails and the other four
succeed, the final record set still has all 5 records, 4 of them resolved
and exactly 1 failed, the failed one is at scene number 3, the run-level
error log is exactly one message referencing panel 3, and the loop ran to
completion past the failure. -/
theorem C6_partial_failure (q : Nat → String) (c : Nat → Option String)
    (d : Nat → List String) (u : Nat → String) (e : String)
    (hu : ∀ i, u i ≠ "error") :
    (runRendering (fivePanels q c d) (failThirdOutcome u e)).panels.length = 5 ∧
    ((runRendering (fivePanels q c d) (failThirdOutcome u e)).panels.filter
      (fun p => panelStatus p == PanelStatus.resolved)).length = 4 ∧
    ((runRendering (fivePanels q c d) (failThirdOutcome u e)).panels.filter
      (fun p => panelStatus p == PanelStatus.failed)).length = 1 ∧
    (∀ p ∈ (runRendering (fivePanels q c d) (failThirdOutcome u e)).panels,
      panelStatus p = PanelStatus.failed → p.scene_number = 3) ∧
    (runRendering (fivePanels q c d) (failThirdOutcome u e)).errors
      = [panelErrMessage 3 e] ∧
    strContains (panelErrMessage 3 e) "panel 3" = true := by
  have hc : strContains (panelErrMessage 3 e) "panel 3" = true := by
    have hbase : strContains (("Error on panel " ++ toString 3) ++ ": ") "panel 3" = true := by
      decide
    exact strContains_append_left _ e _ hbase
  refine ⟨?_, ?_, ?_, ?_, ?_, hc⟩ <;>
    simp [runRendering, fivePanels, failThirdOutcome, renderLoop, renderStep,
      updatePanels, panelStatus, hu]

/-- Witness for C6 at a concrete run. -/
theorem C6_partial_failure_witness :
    (runRendering (fivePanels (fun i => "prompt " ++ toString i) (fun _ => none)
        (fun _ => [])) (failThirdOutcome (fun _ => "u") "timeout")).panels.length = 5 ∧
    ((runRendering (fivePanels (fun i => "prompt " ++ toString i) (fun _ => none)
        (fun _ => [])) (failThirdOutcome (fun _ => "u") "timeout")).panels.filter
      (fun p => panelStatus p == PanelStatus.resolved)).length = 4 ∧
    ((runRendering (fivePanels (fun i => "prompt " ++ toString i) (fun _ => none)
        (fun _ => [])) (failThirdOutcome (fun _ => "u") "timeout")).panels.filter
      (fun p => panelStatus p == PanelStatus.failed)).length = 1 ∧
    (∀ p ∈ (runRendering (fivePanels (fun i => "prompt " ++ toString i) (fun _ => none)
        (fun _ => [])) (failThirdOutcome (fun _ => "u") "timeout")).panels,
      panelStatus p = PanelStatus.failed → p.scene_number = 3) ∧
    (runRendering (fivePanels (fun i => "prompt " ++ toString i) (fun _ => none)
        (fun _ => [])) (failThirdOutcome (fun _ => "u") "timeout")).errors
      = [panelErrMessage 3 "timeout"] ∧
    strContains (panelErrMessage 3 "timeout") "panel 3" = true :=
  C6_partial_failure (fun i => "prompt " ++ toString i) (fun _ => none) (fun _ => [])
    (fun _ => "u") "timeout" (fun _ => by simp)

theorem strContains_joinSep (sep : String) (l : List String) (s : String)
    (h : s ∈ l) : strContains (joinSep sep l) s = true := by
  induction l with
  | nil => cases h
  | cons a rest ih =>
    cases rest with
    | nil =>
      have hs : s = a := by simpa using h
      subst hs
      exact strContains_refl s
    | cons b rest2 =>
      rcases List.mem_cons.mp h with hs | hs
      · subst hs
        exact strContains_append_left s (sep ++ joinSep sep (b :: rest2)) s
          (strContains_refl s)
      · exact strContains_append_right a (sep ++ joinSep sep (b :: rest2)) s
          (strContains_append_right sep (joinSep sep (b :: rest2)) s (ih hs))

/-- A canon whose single character has the one-letter description "a",
used to show the negative half of C7 fails as literally stated. -/
def canonZaraA : List (String × CharacterSheetDetails) :=
  [("Zara", { appearance := some "a", IVAP := none })]

/-- C7 counterexample: the panel prompt "cat" does not mention "Zara"
case-insensitively, yet the final prompt sent to the image backend does
contain the resolved description D = "a" (through the prompt's own text),
so "the final prompt never contains D" fails as stated. -/
theorem C7_counterexample :
    strContains (toLowerStr "cat") (toLowerStr "Zara") = false ∧
    canonLookup canonZaraA "Zara"
      = some { appearance := some "a", IVAP := none } ∧
    strContains (renderedPromptForPanel canonZaraA "cat" "s" "e") "a" = true := by
  refine ⟨by decide, rfl, by decide⟩

/-- C7 (amended): given a character whose canon entry resolves to a
non-empty description D, every panel whose backend-provided image prompt
mentions the character's name case-insensitively gets D embedded in the
final prompt sent to the image backend; for a panel whose prompt does not
mention the name, the name is not among the matched characters, so the
resolver prepends no description for it (the final prompt can still contain
D only through text already present in the prompt or suffix, as the
counterexample shows). -/
theorem C7_character_consistency_amended
    (canon : List (String × CharacterSheetDetails))
    (name D image_prompt style era : String)
    (sheet : CharacterSheetDetails)
    (hlook : canonLookup canon name = some sheet)
    (happ : sheet.appearance = some D)
    (hD : D ≠ "") :
    (strContains (toLowerStr image_prompt) (toLowerStr name) = true →
      strContains (renderedPromptForPanel canon image_prompt style era) D = true) ∧
    (strContains (toLowerStr image_prompt) (toLowerStr name) = false →
      name ∉ sceneCharacterNames canon image_prompt) := by
  constructor
  · intro hmention
    have hdesc : descFor canon name = D := by
      simp [descFor, hlook, happ, jsOrStr, hD]
    have hkey : name ∈ canon.map Prod.fst := by
      rcases hfind : canon.find? (fun kv => kv.fst == name) with _ | kv
      · rw [canonLookup, hfind] at hlook
        cases hlook
      · have hkv : kv ∈ canon := List.mem_of_find?_eq_some hfind
        have hbeq := List.find?_some hfind
        have heq : kv.fst = name := by simpa using hbeq
        exact List.mem_map.mpr ⟨kv, hkv, heq⟩
    have hmemName : name ∈ sceneCharacterNames canon image_prompt :=
      List.mem_filter.mpr ⟨hkey, hmention⟩
    have hmemD : D ∈ sceneDescs canon (sceneCharacterNames canon image_prompt) := by
      refine List.mem_filter.mpr ⟨List.mem_map.mpr ⟨name, hmemName, hdesc⟩, ?_⟩
      simp [hD]
    have hjoin : strContains
        (joinSep "\n" (sceneDescs canon (sceneCharacterNames canon image_prompt))) D
          = true :=
      strContains_joinSep "\n" _ D hmemD
    have hne : (sceneCharacterNames canon image_prompt).isEmpty = false := by
      cases hsc : sceneCharacterNames canon image_prompt with
      | nil => rw [hsc] at hmemName; cases hmemName
      | cons x xs => rfl
    by_cases hj : joinSep "\n" (sceneDescs canon (sceneCharacterNames canon image_prompt)) = ""
    · exfalso
      rw [hj] at hjoin
      unfold strContains at hjoin
      cases hDl : D.toList with
      | nil =>
        apply hD
        cases D
        simp_all
      | cons a l =>
        rw [hDl] at hjoin
        exact absurd hjoin (by simp [hasSubstrChars, isPrefixChars])
    · unfold renderedPromptForPanel finalImagePrompt
      rw [hne]
      simp only [Bool.false_eq_true, if_false, if_neg hj]
      exact strContains_append_left _ _ D hjoin
  · intro hmiss hmem
    have hpred := (List.mem_filter.mp hmem).2
    rw [hmiss] at hpred
    cases hpred

/-- A canon with a substantial resolved description for the C7 witness. -/
def canonZaraFull : List (String × CharacterSheetDetails) :=
  [("Zara", { appearance := some "Zara has red hair and a scar", IVAP := none })]

/-- Witness for C7 (amended) at a concrete canon, prompt and description. -/
theorem C7_character_consistency_amended_witness :
    (strContains (toLowerStr "Zara walks into the bar") (toLowerStr "Zara") = true →
      strContains (renderedPromptForPanel canonZaraFull "Zara walks into the bar"
        "noir" "1950s") "Zara has red hair and a scar" = true) ∧
    (strContains (toLowerStr "Zara walks into the bar") (toLowerStr "Zara") = false →
      "Zara" ∉ sceneCharacterNames canonZaraFull "Zara walks into the bar") :=
  C7_character_consistency_amended canonZaraFull "Zara" "Zara has red hair and a scar"
    "Zara walks into the bar" "noir" "1950s"
    { appearance := some "Zara has red hair and a scar", IVAP := none } rfl rfl (by decide)
